import Mathlib

/-!
Shallow embedding of the power-rail discovery and measurement subsystem of
`platformstats` (`src/platformstats.c`, lines 1146-2009): the sysfs scalar
reader (`read_sysfs_entry`), the hwmon enumerator
(`count_hwmon_reg_devices`), the device/channel resolver
(`get_pmbus_device_filename`), the rail tables, the reporter
(`print_pmbus_info`) and the board dispatcher (`print_power_utilization`).

The filesystem is modelled as a map from path strings (built by the same
string concatenations the C code performs with `strcpy`/`strcat`) to
directory listings and file contents.  `fopen`+`fscanf "%s"` of a file is
modelled as `SysFS.files path : Option String` returning the first
whitespace-delimited token (`none` = `fopen` fails); `opendir`+`readdir`
as `SysFS.dirs path : Option (List String)` returning the entries in
enumeration order (`none` = `opendir` fails).  `errno` after a failed call
is modelled as the field `SysFS.errno`.  The C `for` loop of the resolver
can jump backwards (it reassigns its loop variable from a parsed directory
entry), so the loop is embedded with an explicit fuel argument; `none`
means the fuel ran out.  Undefined behavior reached by the reporter
(`fscanf`/`fclose` on a NULL `FILE*`, printing an uninitialized `long`)
is represented by an explicit error value.
-/

/-- `strstr(hay, needle) != NULL` on the char-list level: does `needle`
occur as a contiguous substring of `hay`? -/
def hasSub (needle : List Char) : List Char → Bool
  | [] => needle.isEmpty
  | c :: t => needle.isPrefixOf (c :: t) || hasSub needle t

/-- `strstr(hay, needle) != NULL` for strings. -/
def strstrB (hay needle : String) : Bool :=
  hasSub needle.data hay.data

/-- Value of a list of decimal digit characters. -/
def digitsVal (l : List Char) : Nat :=
  l.foldl (fun a c => a * 10 + (c.toNat - '0'.toNat)) 0

/-- `sscanf(s, "%d", &v)` / `fscanf(fp, "%ld", &v)` on a whitespace-free
token: an optional sign followed by a longest run of decimal digits.
`none` means the conversion fails (the C variable is left unchanged). -/
def parseIntToken (s : String) : Option Int :=
  let go : List Char → Option Int := fun l =>
    let ds := l.takeWhile (·.isDigit)
    if ds.isEmpty then none else some (digitsVal ds : Int)
  match s.data with
  | '-' :: t => (go t).map (fun n => -n)
  | '+' :: t => go t
  | l => go l

/-- `strcpy(reg_name, d_name); strcpy(&reg_name[strlen(d_name)-5], "input")`:
overwrite the last five characters of the buffer with `"input"`
(lines 1879-1880 of `platformstats.c`). -/
def replLabelInput (s : String) : String :=
  ⟨s.data.take (s.data.length - 5) ++ ("input" : String).data⟩

/-- One row of a board rail table (`struct pmbus_info`): device (chip
model), bus address, explicit attribute name (`""` = resolve by label),
channel label, display alias, display unit, scale divisor.  The C struct
field is called `alias`, which is a reserved word in this Lean
environment, hence `alias_`. -/
structure PmbusInfo where
  device : String
  address : String
  name : String
  label : String
  alias_ : String
  unit : String
  division : Int
deriving DecidableEq

/-- The sysfs filesystem state visible to the program. -/
structure SysFS where
  /-- `opendir p` + full `readdir` enumeration; `none` = `opendir` fails. -/
  dirs : String → Option (List String)
  /-- `fopen p` + `fscanf "%s"`: first token of the file; `none` = `fopen`
  fails. -/
  files : String → Option String
  /-- value of `errno` after a failed `opendir`/`fopen`. -/
  errno : Int

/-- `count_hwmon_reg_devices` (lines 1175-1202): count the entries of
`/sys/class/hwmon` whose name contains `"hwmon"`; on `opendir` failure
print a message and return `errno`. -/
def count_hwmon_reg_devices (fs : SysFS) : Int :=
  match fs.dirs "/sys/class/hwmon" with
  | none => fs.errno
  | some entries => ((entries.filter (fun e => strstrB e "hwmon")).length : Int)

/-- `read_sysfs_entry` result: return code, token read into `value`
(`none` = the caller's buffer was not written), plus the file handles that
were successfully opened and the ones that were closed, and the lines
printed. -/
structure ReadResult where
  ret : Int
  value : Option String
  opened : List String
  closed : List String
  outs : List String
deriving DecidableEq

/-- `read_sysfs_entry` (lines 1146-1163): `fopen`; on failure print a
message and return `errno`; on success `fscanf "%s"` and return 0.
The C function contains no `fclose` call at all, so `closed` is empty on
every path. -/
def read_sysfs_entry (fs : SysFS) (filename : String) : ReadResult :=
  match fs.files filename with
  | none => ⟨fs.errno, none, [], [], ["Unable to open " ++ filename ++ "\n"]⟩
  | some v => ⟨0, some v, [filename], [], []⟩

/-- The path `"/sys/class/hwmon/hwmon" + id + "/device/driver/" + address
+ "/name"` built at lines 1774-1778. -/
def drvNamePath (i : Int) (addr : String) : String :=
  "/sys/class/hwmon/hwmon" ++ toString i ++ "/device/driver/" ++ addr ++ "/name"

/-- The path `"/sys/class/hwmon/hwmon" + id + "/device/driver/" + address
+ "/hwmon"` built at lines 1801-1805. -/
def drvHwmonPath (i : Int) (addr : String) : String :=
  "/sys/class/hwmon/hwmon" ++ toString i ++ "/device/driver/" ++ addr ++ "/hwmon"

/-- The hwmon instance directory `"/sys/class/hwmon/hwmon" + id`. -/
def hwmonDirPath (i : Int) : String :=
  "/sys/class/hwmon/hwmon" ++ toString i

/-- The verbose success line `"\t%s@%s-%s => %s\n"` printed at lines 1839
and 1895. -/
def successLine (p : PmbusInfo) (fn : String) : String :=
  "\t" ++ p.device ++ "@" ++ p.address ++ "-" ++ p.label ++ " => " ++ fn ++ "\n"

/-- Events accumulated by one run of the resolver: `opendir` calls made
for the label scan, `fopen` calls made on `*label*` files during the
scan, unconditionally printed lines, and verbose-only diagnostic lines. -/
structure Emit where
  labelDirs : List String
  labelFiles : List String
  outs : List String
  diag : List String
deriving DecidableEq

/-- The empty event record. -/
def Emit.nil : Emit := ⟨[], [], [], []⟩

/-- Concatenation of event records. -/
def Emit.app (a b : Emit) : Emit :=
  ⟨a.labelDirs ++ b.labelDirs, a.labelFiles ++ b.labelFiles,
   a.outs ++ b.outs, a.diag ++ b.diag⟩

/-- Which `return` statement of `get_pmbus_device_filename` produced the
result: a found attribute (`return hwmon_id`), loop exhaustion
(`return -1`), or one of the three `return errno` sites (lines 1811,
1819, 1856). -/
inductive RSite where
  | found
  | notFound
  | errnoDirOpen
  | errnoDirRead
  | errnoScanOpen
deriving DecidableEq

/-- Result of `get_pmbus_device_filename`: the returned `int`, the final
content of the caller's `filename` buffer, the (possibly updated)
descriptor `*pInfo`, the return site and the accumulated events. -/
structure ResolveResult where
  ret : Int
  filename : String
  pInfo : PmbusInfo
  site : RSite
  em : Emit
deriving DecidableEq

/-- Result of the label-scan `while` loop (lines 1859-1900): either the
first matching label file was found (resolved filename, derived attribute
name, label files opened, unconditional output, diagnostic output), or
the whole directory was scanned without a match (final `filename` buffer
content, label files opened, unconditional output). -/
inductive ScanOut where
  | found (filename regName : String) (opened outs diag : List String)
  | noMatch (filename : String) (opened outs : List String)
deriving DecidableEq

/-- The label-scan `while` loop of `get_pmbus_device_filename`
(lines 1858-1900): for each directory entry containing `"label"`, build
its path, `fopen` it (skip it with a message if that fails), read its
token and compare with `pInfo->label`; on the first match derive the
attribute name by overwriting the trailing `"label"` with `"input"` and
return the full filename.  `fn` is the current content of the `filename`
buffer. -/
def scanLabels (fs : SysFS) (verbose : Bool) (p : PmbusInfo) (m : Int) :
    List String → String → ScanOut
  | [], fn => .noMatch fn [] []
  | e :: es, fn =>
    if strstrB e "label" then
      let fpath := "/sys/class/hwmon/hwmon" ++ toString m ++ "/" ++ e
      match fs.files fpath with
      | none =>
        match scanLabels fs verbose p m es fpath with
        | .found f r o outs d =>
            .found f r (fpath :: o) (("unable to open " ++ fpath ++ "\n") :: outs) d
        | .noMatch f o outs =>
            .noMatch f (fpath :: o) (("unable to open " ++ fpath ++ "\n") :: outs)
      | some lab =>
        if lab = p.label then
          let regName := replLabelInput e
          let fname := "/sys/class/hwmon/hwmon" ++ toString m ++ "/" ++ regName
          .found fname regName [fpath] []
            (if verbose then [successLine p fname] else [])
        else
          match scanLabels fs verbose p m es fpath with
          | .found f r o outs d => .found f r (fpath :: o) outs d
          | .noMatch f o outs => .noMatch f (fpath :: o) outs
    else
      scanLabels fs verbose p m es fn

/-- Outcome of one iteration of the resolver's `for` loop body: either
fall through to the next iteration (with the loop variable set to
`nextId`, because the body may reassign it at line 1825 before `++`), or
return from the function. -/
inductive StepOut where
  | next (nextId : Int) (filename : String) (em : Emit)
  | done (ret : Int) (filename : String) (p : PmbusInfo) (site : RSite) (em : Emit)
deriving DecidableEq

/-- One iteration of the resolver's `for` loop body (lines 1769-1905) at
index `i`: probe `hwmon<i>/device/driver/<address>/name` (skip on open
failure or device-name mismatch), read the true instance index from the
`.../hwmon` subdirectory (third `readdir` entry, digits after
`"hwmon"`; `return errno` on `opendir`/`readdir` failure), then either
build `hwmon<m>/<name>` directly when `pInfo->name` is nonempty, or scan
the `*label*` files of `hwmon<m>` for `pInfo->label` (memoizing the
derived name into `pInfo->name` on success; falling through to the next
iteration when nothing matches). -/
def resolveStep (fs : SysFS) (verbose : Bool) (p : PmbusInfo) (i : Int) : StepOut :=
  let fn1 := drvNamePath i p.address
  match fs.files fn1 with
  | none => .next (i + 1) fn1 Emit.nil
  | some device_name =>
    let d1 : List String :=
      if verbose then ["\t" ++ fn1 ++ " => " ++ device_name ++ "\n"] else []
    if p.device = device_name then
      let fn2 := drvHwmonPath i p.address
      match fs.dirs fn2 with
      | none =>
          .done fs.errno fn2 p .errnoDirOpen
            ⟨[], [], ["Unable to open " ++ fn2 ++ " path\n"], d1⟩
      | some dl =>
        match (dl.drop 2).head? with
        | none =>
            .done fs.errno fn2 p .errnoDirRead
              ⟨[], [], ["Unable to read " ++ fn2 ++ " directory\n"], d1⟩
        | some ent =>
          let d2 := d1 ++ (if verbose then ["\t" ++ fn2 ++ " => " ++ ent ++ "\n"] else [])
          let m := (parseIntToken (ent.drop 5)).getD i
          if p.name = "" then
            let d3 := d2 ++ (if verbose then
              ["\tSearching for name that matches label " ++ p.label ++ "\n"] else [])
            match fs.dirs (hwmonDirPath m) with
            | none =>
                .done fs.errno (hwmonDirPath m) p .errnoScanOpen
                  ⟨[], [], ["Unable to open " ++ hwmonDirPath m ++ " path\n"], d3⟩
            | some es =>
              match scanLabels fs verbose p m es (hwmonDirPath m) with
              | .found fname regName opened outs dg =>
                  .done m fname { p with name := regName } .found
                    ⟨[hwmonDirPath m], opened, outs, d3 ++ dg⟩
              | .noMatch lastFn opened outs =>
                  .next (m + 1) lastFn ⟨[hwmonDirPath m], opened, outs, d3⟩
          else
            let fn3 := "/sys/class/hwmon/hwmon" ++ toString m ++ "/" ++ p.name
            .done m fn3 p .found
              ⟨[], [], [], d2 ++ (if verbose then [successLine p fn3] else [])⟩
    else
      .next (i + 1) fn1 ⟨[], [], [], d1⟩

/-- The resolver's `for` loop: run `resolveStep` while `i < num`,
threading the `filename` buffer and the accumulated events; exiting the
loop returns `-1`.  `fuel` bounds the number of iterations (the C loop
variable can be moved backwards by the body, so the loop need not
terminate); `none` = out of fuel. -/
def resolveLoop (fs : SysFS) (verbose : Bool) (p : PmbusInfo) (num : Int) :
    Nat → Int → String → Emit → Option ResolveResult
  | fuel, i, fn, em =>
    if num ≤ i then some ⟨-1, fn, p, .notFound, em⟩
    else
      match fuel with
      | 0 => none
      | fuel' + 1 =>
        match resolveStep fs verbose p i with
        | .next j fn' em' => resolveLoop fs verbose p num fuel' j fn' (em.app em')
        | .done ret fn' p' site em' => some ⟨ret, fn', p', site, em.app em'⟩

/-- `get_pmbus_device_filename` (lines 1749-1909): count the hwmon
devices, then run the search loop from index 0.  The caller's `filename`
buffer starts out unwritten (modelled as `""`). -/
def get_pmbus_device_filename (fs : SysFS) (verbose : Bool) (p : PmbusInfo)
    (fuel : Nat) : Option ResolveResult :=
  resolveLoop fs verbose p (count_hwmon_reg_devices fs) fuel 0 "" Emit.nil

/-- An undefined-behavior point or modelling limit reached by the
reporter: `fscanf`/`fclose` on a NULL `FILE*` after a failed `fopen`
(lines 1944-1945 run unconditionally), printing a `long` that `fscanf`
never assigned, running past the end of a table with no sentinel row, or
the resolver running out of fuel. -/
inductive RunError where
  | nullRead (filename : String)
  | uninitValue (filename : String)
  | tableOverrun
  | outOfFuel
deriving DecidableEq

/-- The verbose per-row line `"[%d] %s,%s,%s,%s,%s\n"` of line 1928. -/
def rowDiag (idx : Nat) (p : PmbusInfo) : String :=
  "[" ++ toString idx ++ "] " ++ p.device ++ "," ++ p.address ++ "," ++ p.label
    ++ "," ++ p.name ++ "," ++ p.unit ++ "\n"

/-- The result line `"\t%s@%s-%s (%s) = %ld %s\n"` of line 1946; the
value printed is `pmbus_value / division`, C `long` division (truncation
toward zero). -/
def resultLine (p : PmbusInfo) (v : Int) : String :=
  "\t" ++ p.device ++ "@" ++ p.address ++ "-" ++ p.label ++ " (" ++ p.alias_
    ++ ") = " ++ toString (Int.tdiv v p.division) ++ " " ++ p.unit ++ "\n"

/-- The `while` loop of `print_pmbus_info` (lines 1923-1949): iterate the
rows until the sentinel row with empty device name; for each row resolve
the filename, `fopen` it, read the value with `fscanf "%ld"` and print
the result line.  Returns `(unconditional output, verbose-only output)`.
When `fopen` fails the C code prints a message and then runs
`fscanf(NULL)`/`fclose(NULL)` — undefined behavior, modelled as
`RunError.nullRead` (output produced before that point is dropped). -/
def print_pmbus_rows (fs : SysFS) (verbose : Bool) (fuel : Nat) :
    Nat → List PmbusInfo → Except RunError (List String × List String)
  | _, [] => .error .tableOverrun
  | idx, p :: rest =>
    if p.device = "" then .ok ([], [])
    else
      let d0 := if verbose then [rowDiag idx p] else []
      match get_pmbus_device_filename fs verbose p fuel with
      | none => .error .outOfFuel
      | some r =>
        let d1 := d0 ++ r.em.diag ++
          (if verbose then [successLine p r.filename] else [])
        match fs.files r.filename with
        | none => .error (.nullRead r.filename)
        | some tok =>
          match parseIntToken tok with
          | none => .error (.uninitValue r.filename)
          | some v =>
            match print_pmbus_rows fs verbose fuel (idx + 1) rest with
            | .error e => .error e
            | .ok (outs, diag) =>
                .ok (r.em.outs ++ [resultLine p v] ++ outs, d1 ++ diag)

/-- `print_pmbus_info` (lines 1911-1950): print the header then process
the table rows. -/
def print_pmbus_info (fs : SysFS) (verbose : Bool) (table : List PmbusInfo)
    (fuel : Nat) : Except RunError (List String × List String) :=
  match print_pmbus_rows fs verbose fuel 0 table with
  | .error e => .error e
  | .ok (outs, diag) => .ok ("\nPower Utilization:\n" :: outs, diag)

/-- The sentinel row `{ "", "", "", "", "", 1 }` terminating each rail
table. -/
def pmbusSentinel : PmbusInfo := ⟨"", "", "", "", "", "", 1⟩

/-- `pmbus_ultra96v2` (lines 1653-1677). -/
def pmbus_ultra96v2 : List PmbusInfo :=
  [ ⟨"ir38060", "6-0045", "", "pout1", "         5V", "mW", 1000⟩,
    ⟨"ir38060", "6-0045", "", "iout1", "         5V", "mA", 1⟩,
    ⟨"ir38060", "6-0045", "", "iout1", "         5V", "mV", 1⟩,
    ⟨"ir38060", "6-0045", "temp1_input", "temp1", "Temperature", "C", 1000⟩,
    ⟨"irps5401", "6-0043", "", "pout1", "     VCCAUX", "mW", 1000⟩,
    ⟨"irps5401", "6-0043", "", "pout2", "  VCCO 1.2V", "mW", 1000⟩,
    ⟨"irps5401", "6-0043", "", "pout3", "  VCCO 1.1V", "mW", 1000⟩,
    ⟨"irps5401", "6-0043", "", "pout4", "     VCCINT", "mW", 1000⟩,
    ⟨"irps5401", "6-0043", "", "pout5", "    3.3V DP", "mW", 1000⟩,
    ⟨"irps5401", "6-0043", "temp1_input", "temp1", "Temperature", "C", 1000⟩,
    ⟨"irps5401", "6-0044", "", "pout1", "   VCCPSAUX", "mW", 1000⟩,
    ⟨"irps5401", "6-0044", "", "pout2", "   PSINT_LP", "mW", 1000⟩,
    ⟨"irps5401", "6-0044", "", "pout3", "  VCCO 3.3V", "mW", 1000⟩,
    ⟨"irps5401", "6-0044", "", "pout4", "   PSINT_FP", "mW", 1000⟩,
    ⟨"irps5401", "6-0044", "", "pout5", " PSPLL 1.2V", "mW", 1000⟩,
    ⟨"irps5401", "6-0044", "temp1_input", "temp1", "Temperature", "C", 1000⟩,
    pmbusSentinel ]

/-- `pmbus_uz7ev_evcc` (lines 1679-1717). -/
def pmbus_uz7ev_evcc : List PmbusInfo :=
  [ ⟨"ir38063", "6-004c", "", "pout1", "              Carrier 3V3", "mW", 1000⟩,
    ⟨"ir38063", "6-004b", "", "pout1", "              Carrier 1V8", "mW", 1000⟩,
    ⟨"irps5401", "6-004a", "", "pout1", "      Carrier 0V9 MGTAVCC", "mW", 1000⟩,
    ⟨"irps5401", "6-004a", "", "pout2", "      Carrier 1V2 MGTAVTT", "mW", 1000⟩,
    ⟨"irps5401", "6-004a", "", "pout3", "         Carrier 1V1 HDMI", "mW", 1000⟩,
    ⟨"irps5401", "6-004a", "", "pout5", "Carrier 1V8 MGTVCCAUX LDO", "mW", 1000⟩,
    ⟨"irps5401", "6-0049", "", "pout1", "    Carrier 0V85 MGTRAVCC", "mW", 1000⟩,
    ⟨"irps5401", "6-0049", "", "pout2", "         Carrier 1V8 VCCO", "mW", 1000⟩,
    ⟨"irps5401", "6-0049", "", "pout3", "         Carrier 3V3 VCCO", "mW", 1000⟩,
    ⟨"irps5401", "6-0049", "", "pout4", "          Carrier 5V MAIN", "mW", 1000⟩,
    ⟨"irps5401", "6-0049", "", "pout5", " Carrier 1V8 MGTRAVTT LDO", "mW", 1000⟩,
    ⟨"irps5401", "6-0049", "temp1_input", "temp1", "              Temperature", "C", 1000⟩,
    ⟨"ir38063", "6-0048", "", "pout1", "          SOM 0V85 VCCINT", "mW", 1000⟩,
    ⟨"irps5401", "6-0047", "", "pout1", "           SOM 1V8 VCCAUX", "mW", 1000⟩,
    ⟨"irps5401", "6-0047", "", "pout2", "                  SOM 3V3", "mW", 1000⟩,
    ⟨"irps5401", "6-0047", "", "pout3", "           SOM 0V9 VCUINT", "mW", 1000⟩,
    ⟨"irps5401", "6-0047", "", "pout4", "       SOM 1V2 VCCO_HP_66", "mW", 1000⟩,
    ⟨"irps5401", "6-0047", "", "pout5", "    SOM 1V8 PSDDR_PLL LDO", "mW", 1000⟩,
    ⟨"irps5401", "6-0047", "temp1_input", "temp1", "              Temperature", "C", 1000⟩,
    ⟨"irps5401", "6-0046", "", "pout1", "        SOM 1V2 VCCO_PSIO", "mW", 1000⟩,
    ⟨"irps5401", "6-0046", "", "pout2", "     SOM 0V85 VCC_PSINTLP", "mW", 1000⟩,
    ⟨"irps5401", "6-0046", "", "pout3", "  SOM 1V2 VCCO_PSDDR4_504", "mW", 1000⟩,
    ⟨"irps5401", "6-0046", "", "pout4", "     SOM 0V85 VCC_PSINTFP", "mW", 1000⟩,
    ⟨"irps5401", "6-0046", "", "pout5", "    SOM 1V2 VCC_PSPLL LDO", "mW", 1000⟩,
    ⟨"irps5401", "6-0046", "temp1_input", "temp1", "              Temperature", "C", 1000⟩,
    pmbusSentinel ]

/-- `pmbus_uz3eg_xxx` (lines 1719-1745). -/
def pmbus_uz3eg_xxx : List PmbusInfo :=
  [ ⟨"irps5401", "6-0043", "", "pout1", "       PSIO", "mW", 1000⟩,
    ⟨"irps5401", "6-0043", "", "pout2", "     VCCAUX", "mW", 1000⟩,
    ⟨"irps5401", "6-0043", "", "pout3", "    PSINTLP", "mW", 1000⟩,
    ⟨"irps5401", "6-0043", "", "pout4", "    PSINTFP", "mW", 1000⟩,
    ⟨"irps5401", "6-0043", "", "pout5", "      PSPLL", "mW", 1000⟩,
    ⟨"irps5401", "6-0043", "temp1_input", "temp1", "Temperature", "C", 1000⟩,
    ⟨"irps5401", "6-0044", "", "pout1", "     PSDDR4", "mW", 1000⟩,
    ⟨"irps5401", "6-0044", "", "pout2", "     INT_IO", "mW", 1000⟩,
    ⟨"irps5401", "6-0044", "", "pout3", "       3.3V", "mW", 1000⟩,
    ⟨"irps5401", "6-0044", "", "pout4", "        INT", "mW", 1000⟩,
    ⟨"irps5401", "6-0044", "", "pout5", "   PSDDRPLL", "mW", 1000⟩,
    ⟨"irps5401", "6-0044", "temp1_input", "temp1", "Temperature", "C", 1000⟩,
    ⟨"irps5401", "6-0045", "", "pout1", "    MGTAVCC", "mW", 1000⟩,
    ⟨"irps5401", "6-0045", "", "pout2", "         5V", "mW", 1000⟩,
    ⟨"irps5401", "6-0045", "", "pout3", "       3.3V", "mW", 1000⟩,
    ⟨"irps5401", "6-0045", "", "pout4", "  VCCO 1.8V", "mW", 1000⟩,
    ⟨"irps5401", "6-0045", "", "pout5", "    MGTAVTT", "mW", 1000⟩,
    ⟨"irps5401", "6-0045", "temp1_input", "temp1", "Temperature", "C", 1000⟩,
    pmbusSentinel ]

/-- One guarded board branch of `print_power_utilization`: when `cond`
holds, print the verbose board-name line and run `print_pmbus_info` for
the table; otherwise contribute nothing. -/
def runBoard (fs : SysFS) (verbose : Bool) (fuel : Nat) (cond : Bool)
    (bdName : String) (table : List PmbusInfo) :
    Except RunError (List String × List String) :=
  if cond then
    match print_pmbus_info fs verbose table fuel with
    | .error e => .error e
    | .ok (o, d) => .ok (o, (if verbose then [bdName ++ "\n"] else []) ++ d)
  else .ok ([], [])

/-- `print_power_utilization` (lines 1963-2009): obtain the hostname
(modelled as the parameter `hostname`; the C code reads it from
`popen("hostname")`), then run the reporter for each board whose name
fragment occurs in the hostname — three independent `strstr` tests in
the fixed order `u96v2`, `uz7ev`, `uz3eg` — and return 0. -/
def print_power_utilization (fs : SysFS) (hostname : String) (verbose : Bool)
    (fuel : Nat) : Except RunError (Int × List String × List String) :=
  let d0 := if verbose then ["hostname=" ++ hostname ++ "\n"] else []
  match runBoard fs verbose fuel (strstrB hostname "u96v2") "Ultra96-V2" pmbus_ultra96v2 with
  | .error e => .error e
  | .ok (o1, d1) =>
    match runBoard fs verbose fuel (strstrB hostname "uz7ev") "UltraZed-7EV-EVCC" pmbus_uz7ev_evcc with
    | .error e => .error e
    | .ok (o2, d2) =>
      match runBoard fs verbose fuel (strstrB hostname "uz3eg") "UltraZed-3EG" pmbus_uz3eg_xxx with
      | .error e => .error e
      | .ok (o3, d3) => .ok (0, o1 ++ o2 ++ o3, d0 ++ d1 ++ d2 ++ d3)

/-- The unconditional-output component of a reporter result (diagnostic
output erased). -/
def outsOf (r : Except RunError (List String × List String)) :
    Except RunError (List String) :=
  r.map Prod.fst

/-- Extract the result from an optional resolver outcome (the default is
never used when the resolver is known to return `some`). -/
def rOf (o : Option ResolveResult) : ResolveResult :=
  o.getD ⟨0, "", pmbusSentinel, .notFound, Emit.nil⟩

/-! ### Concrete filesystem fixtures -/

/-- Scenario-A filesystem (spec section 8): four hwmon instances;
`hwmon3` is the instance bound to driver `irps5401` at bus address
`6-0043`; its directory carries `temp1_label` containing `temp1` and
`temp1_input` containing `45000`. -/
def fs6 : SysFS :=
  { dirs := fun p =>
      if p = "/sys/class/hwmon" then some ["hwmon0", "hwmon1", "hwmon2", "hwmon3"]
      else if p = "/sys/class/hwmon/hwmon3/device/driver/6-0043/hwmon" then
        some [".", "..", "hwmon3"]
      else if p = "/sys/class/hwmon/hwmon3" then some ["name", "temp1_label", "temp1_input"]
      else none,
    files := fun p =>
      if p = "/sys/class/hwmon/hwmon3/device/driver/6-0043/name" then some "irps5401"
      else if p = "/sys/class/hwmon/hwmon3/temp1_label" then some "temp1"
      else if p = "/sys/class/hwmon/hwmon3/temp1_input" then some "45000"
      else none,
    errno := 2 }

/-- The scenario-A rail descriptor: no explicit attribute, resolved by
label `temp1`. -/
def dTemp : PmbusInfo := ⟨"irps5401", "6-0043", "", "temp1", "Temperature", "C", 1000⟩

/-- The scenario-C rail descriptor: explicit attribute `temp1_input`. -/
def dExp : PmbusInfo := ⟨"irps5401", "6-0043", "temp1_input", "temp1", "Temperature", "C", 1000⟩

/-- Scenario-B filesystem: one hwmon instance, but no driver instance
bound at bus address `6-0043` (every driver-binding path is absent). -/
def fs1 : SysFS :=
  { dirs := fun p => if p = "/sys/class/hwmon" then some ["hwmon0"] else none,
    files := fun _ => none,
    errno := 2 }

/-- A filesystem with an empty hwmon class directory on which every rail
table row trivially runs the reporter body: the resolver immediately
returns `-1` leaving the `filename` buffer unwritten (`""`), and the
entry for path `""` then supplies a readable value. -/
def fsT : SysFS :=
  { dirs := fun p => if p = "/sys/class/hwmon" then some [] else none,
    files := fun p => if p = "" then some "45000" else none,
    errno := 2 }

/-- A filesystem whose hwmon class directory cannot be opened. -/
def fsFail : SysFS :=
  { dirs := fun _ => none, files := fun _ => none, errno := 2 }

/-- A filesystem whose hwmon class directory opens but holds no entry
containing `"hwmon"`. -/
def fsEmpty : SysFS :=
  { dirs := fun p => if p = "/sys/class/hwmon" then some [".", ".."] else none,
    files := fun _ => none,
    errno := 2 }

/-! ### C2 — the scalar reader never releases its handle -/

/-- C2 (code_bug evidence): `read_sysfs_entry` contains no `fclose`; on
every successful open the function returns 0 with the handle still open
(`opened = [filename]`, `closed = []`), contradicting the claim that the
handle is always released before returning. -/
theorem read_sysfs_entry_leaks_handle (fs : SysFS) (filename v : String)
    (h : fs.files filename = some v) :
    (read_sysfs_entry fs filename).ret = 0 ∧
    (read_sysfs_entry fs filename).opened = [filename] ∧
    (read_sysfs_entry fs filename).closed = [] := by
  simp [read_sysfs_entry, h]

/-- Witness for `read_sysfs_entry_leaks_handle` at a concrete readable
path of `fs6`. -/
theorem read_sysfs_entry_leaks_handle_witness :
    (read_sysfs_entry fs6 "/sys/class/hwmon/hwmon3/temp1_label").ret = 0 ∧
    (read_sysfs_entry fs6 "/sys/class/hwmon/hwmon3/temp1_label").opened =
      ["/sys/class/hwmon/hwmon3/temp1_label"] ∧
    (read_sysfs_entry fs6 "/sys/class/hwmon/hwmon3/temp1_label").closed = [] :=
  read_sysfs_entry_leaks_handle fs6 "/sys/class/hwmon/hwmon3/temp1_label" "temp1" (by decide)

/-! ### C1 — unbound bus address: resolver returns -1, reporter hits UB -/

/-- C1 (code_bug evidence): with no driver instance bound at the
descriptor's bus address, `get_pmbus_device_filename` returns `-1`
without crashing, but `print_pmbus_info` does not test for `-1`: it
`fopen`s the stale `filename` buffer (the last probed driver path), and
when that fails it runs `fscanf`/`fclose` on a NULL `FILE*` — undefined
behavior instead of skipping the rail. -/
theorem unbound_address_reporter_crash :
    (get_pmbus_device_filename fs1 false dTemp 1).map (fun r => (r.ret, r.site)) =
      some (-1, RSite.notFound) ∧
    print_pmbus_info fs1 false [dTemp, pmbusSentinel] 1 =
      .error (.nullRead "/sys/class/hwmon/hwmon0/device/driver/6-0043/name") :=
  ⟨rfl, rfl⟩

/-! ### C7 — directory-open failure is distinguishable from zero devices -/

/-- C7: when `/sys/class/hwmon` cannot be opened,
`count_hwmon_reg_devices` returns `errno` (nonzero after a failed
`opendir`), which differs from the 0 returned when the directory opens
but contains no hwmon entry. -/
theorem count_hwmon_fail_distinct_from_zero (fs fs0 : SysFS) (entries : List String)
    (hfail : fs.dirs "/sys/class/hwmon" = none)
    (herr : fs.errno ≠ 0)
    (hok : fs0.dirs "/sys/class/hwmon" = some entries)
    (hnone : ∀ e ∈ entries, strstrB e "hwmon" = false) :
    count_hwmon_reg_devices fs = fs.errno ∧
    count_hwmon_reg_devices fs0 = 0 ∧
    count_hwmon_reg_devices fs ≠ count_hwmon_reg_devices fs0 := by
  have h1 : count_hwmon_reg_devices fs = fs.errno := by
    simp [count_hwmon_reg_devices, hfail]
  have h2 : count_hwmon_reg_devices fs0 = 0 := by
    simp only [count_hwmon_reg_devices, hok]
    rw [List.filter_eq_nil_iff.mpr (by simpa using hnone)]
    rfl
  refine ⟨h1, h2, ?_⟩
  rw [h1, h2]
  exact herr

/-- Witness for `count_hwmon_fail_distinct_from_zero` on `fsFail` and
`fsEmpty`. -/
theorem count_hwmon_fail_distinct_from_zero_witness :
    count_hwmon_reg_devices fsFail = fsFail.errno ∧
    count_hwmon_reg_devices fsEmpty = 0 ∧
    count_hwmon_reg_devices fsFail ≠ count_hwmon_reg_devices fsEmpty :=
  count_hwmon_fail_distinct_from_zero fsFail fsEmpty [".", ".."] rfl (by decide) rfl
    (by decide)

/-! ### C8 — unknown board model: empty report, success return -/

/-- C8: when the hostname contains none of the known board fragments,
`print_power_utilization` emits no power report at all and returns 0
(its only unconditional output lists are empty). -/
theorem unknown_board_empty_report (fs : SysFS) (hostname : String) (verbose : Bool)
    (fuel : Nat)
    (h1 : strstrB hostname "u96v2" = false)
    (h2 : strstrB hostname "uz7ev" = false)
    (h3 : strstrB hostname "uz3eg" = false) :
    print_power_utilization fs hostname verbose fuel =
      .ok (0, [], if verbose then ["hostname=" ++ hostname ++ "\n"] else []) := by
  simp [print_power_utilization, runBoard, h1, h2, h3]

/-- Witness for `unknown_board_empty_report` at hostname `zcu102`. -/
theorem unknown_board_empty_report_witness :
    print_power_utilization fs1 "zcu102" false 0 = .ok (0, [], []) :=
  unknown_board_empty_report fs1 "zcu102" false 0 (by decide) (by decide) (by decide)

/-! ### C6 — the emitted result line (leading tab) -/

/-- C6 (amended): for a successfully resolved rail whose attribute file
holds a parseable integer, the reporter emits
`"\t{device}@{address}-{label} ({alias}) = {value} {unit}\n"` — the
claimed format, but with a leading tab character — where the value is
the raw reading divided by the descriptor's divisor with C integer
(truncating) division. -/
theorem resolved_rail_line (fs : SysFS) (verbose : Bool) (fuel : Nat) (p : PmbusInfo)
    (r : ResolveResult) (tok : String) (v : Int)
    (hdev : p.device ≠ "")
    (hres : get_pmbus_device_filename fs verbose p fuel = some r)
    (hfile : fs.files r.filename = some tok)
    (hv : parseIntToken tok = some v) :
    outsOf (print_pmbus_info fs verbose [p, pmbusSentinel] fuel) =
      .ok ("\nPower Utilization:\n" :: r.em.outs ++
        ["\t" ++ p.device ++ "@" ++ p.address ++ "-" ++ p.label ++ " (" ++ p.alias_
          ++ ") = " ++ toString (Int.tdiv v p.division) ++ " " ++ p.unit ++ "\n"]) := by
  simp [print_pmbus_info, print_pmbus_rows, outsOf, hdev, hres, hfile, hv,
    resultLine, pmbusSentinel, Except.map]

/-- Witness for `resolved_rail_line`: the scenario-A descriptor on `fs6`
emits exactly the header and `"\tirps5401@6-0043-temp1 (Temperature) =
45 C\n"`. -/
theorem resolved_rail_line_witness :
    outsOf (print_pmbus_info fs6 false [dTemp, pmbusSentinel] 4) =
      .ok ["\nPower Utilization:\n",
           "\tirps5401@6-0043-temp1 (Temperature) = 45 C\n"] := by
  have h := resolved_rail_line fs6 false 4 dTemp
    (rOf (get_pmbus_device_filename fs6 false dTemp 4)) "45000" 45000
    (by decide) rfl rfl rfl
  exact h

/-- C6 counterexample to the exact claimed line: on the spec's own
end-to-end scenario the emitted line carries a leading tab, so it is not
the claimed `irps5401@6-0043-temp1 (Temperature) = 45 C` (with or
without the terminating newline). -/
theorem resolved_rail_line_counterexample :
    outsOf (print_pmbus_info fs6 false [dTemp, pmbusSentinel] 4) =
      .ok ["\nPower Utilization:\n",
           "\tirps5401@6-0043-temp1 (Temperature) = 45 C\n"] ∧
    ("\tirps5401@6-0043-temp1 (Temperature) = 45 C\n" : String) ≠
      "irps5401@6-0043-temp1 (Temperature) = 45 C" ∧
    ("\tirps5401@6-0043-temp1 (Temperature) = 45 C\n" : String) ≠
      "irps5401@6-0043-temp1 (Temperature) = 45 C\n" :=
  ⟨rfl, by decide, by decide⟩

/-! ### C3 — an explicit attribute never triggers a label scan -/

/-- On a descriptor with nonempty `name`, one loop-body iteration never
opens a label directory or a label file, never updates the descriptor,
and any `found` return carries the filename `hwmon<ret>/<name>`. -/
theorem resolveStep_explicit (fs : SysFS) (v : Bool) (p : PmbusInfo) (i : Int)
    (hname : p.name ≠ "") :
    (match resolveStep fs v p i with
     | .next _ _ em => em.labelDirs = [] ∧ em.labelFiles = []
     | .done ret fn p' site em =>
         em.labelDirs = [] ∧ em.labelFiles = [] ∧ p' = p ∧
         (site = .found →
           fn = "/sys/class/hwmon/hwmon" ++ toString ret ++ "/" ++ p.name)) := by
  unfold resolveStep
  cases hf : fs.files (drvNamePath i p.address) with
  | none => simp [hf, Emit.nil]
  | some dn =>
    by_cases hd : p.device = dn
    · cases hdir : fs.dirs (drvHwmonPath i p.address) with
      | none => simp [hf, hd, hdir]
      | some dl =>
        cases hent : (dl.drop 2).head? with
        | none => simp [hf, hd, hdir, hent]
        | some ent => simp [hf, hd, hdir, hent, hname]
    · simp [hf, hd]

/-- On a descriptor with nonempty `name`, the whole resolver loop adds no
label-scan events, leaves the descriptor unchanged, and any `found`
result has the filename `hwmon<ret>/<name>`. -/
theorem resolveLoop_explicit (fs : SysFS) (v : Bool) (p : PmbusInfo) (num : Int)
    (hname : p.name ≠ "") :
    ∀ (fuel : Nat) (i : Int) (fn : String) (em : Emit) (r : ResolveResult),
      resolveLoop fs v p num fuel i fn em = some r →
      r.pInfo = p ∧ r.em.labelDirs = em.labelDirs ∧ r.em.labelFiles = em.labelFiles ∧
      (r.site = .found →
        r.filename = "/sys/class/hwmon/hwmon" ++ toString r.ret ++ "/" ++ p.name) := by
  intro fuel
  induction fuel with
  | zero =>
    intro i fn em r h
    rw [resolveLoop] at h
    by_cases hi : num ≤ i
    · rw [if_pos hi] at h
      obtain rfl := Option.some.inj h
      simp
    · rw [if_neg hi] at h
      exact absurd h (by simp)
  | succ fuel ih =>
    intro i fn em r h
    rw [resolveLoop] at h
    by_cases hi : num ≤ i
    · rw [if_pos hi] at h
      obtain rfl := Option.some.inj h
      simp
    · rw [if_neg hi] at h
      have hstep := resolveStep_explicit fs v p i hname
      cases hs : resolveStep fs v p i with
      | next j fn' em' =>
        rw [hs] at h hstep
        have := ih j fn' (em.app em') r h
        obtain ⟨he1, he2⟩ := hstep
        refine ⟨this.1, ?_, ?_, this.2.2.2⟩
        · rw [this.2.1]; simp [Emit.app, he1]
        · rw [this.2.2.1]; simp [Emit.app, he2]
      | done ret fn' p' site em' =>
        rw [hs] at h hstep
        obtain rfl := Option.some.inj h
        obtain ⟨he1, he2, he3, he4⟩ := hstep
        exact ⟨he3, by simp [Emit.app, he1], by simp [Emit.app, he2], he4⟩

/-- C3: for a descriptor with nonempty `explicitAttribute`
(`pInfo->name`), the resolver opens no label directory and no label
file, and a successful resolution returns exactly
`hwmon<index>/<name>` for the hwmon index it matched. -/
theorem explicit_attribute_skips_label_scan (fs : SysFS) (verbose : Bool)
    (p : PmbusInfo) (fuel : Nat) (r : ResolveResult)
    (hname : p.name ≠ "")
    (h : get_pmbus_device_filename fs verbose p fuel = some r) :
    r.em.labelDirs = [] ∧ r.em.labelFiles = [] ∧
    (r.site = .found →
      r.filename = "/sys/class/hwmon/hwmon" ++ toString r.ret ++ "/" ++ p.name) := by
  have hl := resolveLoop_explicit fs verbose p (count_hwmon_reg_devices fs) hname
    fuel 0 "" Emit.nil r h
  exact ⟨by rw [hl.2.1]; rfl, by rw [hl.2.2.1]; rfl, hl.2.2.2⟩

/-- Witness for `explicit_attribute_skips_label_scan`: the scenario-C
descriptor (explicit `temp1_input`) on `fs6` resolves with no label-scan
activity. -/
theorem explicit_attribute_skips_label_scan_witness :
    (rOf (get_pmbus_device_filename fs6 false dExp 4)).em.labelDirs = [] ∧
    (rOf (get_pmbus_device_filename fs6 false dExp 4)).em.labelFiles = [] ∧
    ((rOf (get_pmbus_device_filename fs6 false dExp 4)).site = .found →
      (rOf (get_pmbus_device_filename fs6 false dExp 4)).filename =
        "/sys/class/hwmon/hwmon" ++
          toString (rOf (get_pmbus_device_filename fs6 false dExp 4)).ret ++ "/" ++
          dExp.name) :=
  explicit_attribute_skips_label_scan fs6 false dExp 4
    (rOf (get_pmbus_device_filename fs6 false dExp 4)) (by decide) rfl

/-! ### C4 — label-based resolution: first match in enumeration order -/

/-- The condition under which one scan iteration accepts a directory
entry: the entry name contains `"label"`, and its file opens and holds
exactly the descriptor's label. -/
def labelMatchP (fs : SysFS) (p : PmbusInfo) (m : Int) (e : String) : Bool :=
  strstrB e "label" &&
    (fs.files ("/sys/class/hwmon/hwmon" ++ toString m ++ "/" ++ e) == some p.label)

/-- The scan loop agrees with first-match search: it returns `found`
with the `label`→`input` derived name exactly for the first entry (in
enumeration order) accepted by `labelMatchP`, and `noMatch` when no
entry is accepted. -/
theorem scanLabels_spec (fs : SysFS) (v : Bool) (p : PmbusInfo) (m : Int) :
    ∀ (es : List String) (fn : String),
      (match es.find? (labelMatchP fs p m) with
       | some e => ∃ opened outs dg,
           scanLabels fs v p m es fn =
             .found ("/sys/class/hwmon/hwmon" ++ toString m ++ "/" ++ replLabelInput e)
               (replLabelInput e) opened outs dg
       | none => ∃ fn' opened outs,
           scanLabels fs v p m es fn = .noMatch fn' opened outs) := by
  intro es
  induction es with
  | nil =>
    intro fn
    exact ⟨fn, [], [], rfl⟩
  | cons e es ih =>
    intro fn
    by_cases hl : strstrB e "label"
    · cases hfc : fs.files ("/sys/class/hwmon/hwmon" ++ toString m ++ "/" ++ e) with
      | none =>
        have hp : labelMatchP fs p m e = false := by simp [labelMatchP, hl, hfc]
        rw [List.find?_cons, hp]
        have hrec := ih ("/sys/class/hwmon/hwmon" ++ toString m ++ "/" ++ e)
        cases hfind : es.find? (labelMatchP fs p m) with
        | none =>
          rw [hfind] at hrec
          obtain ⟨fn', opened, outs, hs⟩ := hrec
          exact ⟨fn', ("/sys/class/hwmon/hwmon" ++ toString m ++ "/" ++ e) :: opened,
            ("unable to open " ++ ("/sys/class/hwmon/hwmon" ++ toString m ++ "/" ++ e) ++ "\n") :: outs,
            by simp [scanLabels, hl, hfc, hs]⟩
        | some e' =>
          rw [hfind] at hrec
          obtain ⟨opened, outs, dg, hs⟩ := hrec
          exact ⟨("/sys/class/hwmon/hwmon" ++ toString m ++ "/" ++ e) :: opened,
            ("unable to open " ++ ("/sys/class/hwmon/hwmon" ++ toString m ++ "/" ++ e) ++ "\n") :: outs,
            dg, by simp [scanLabels, hl, hfc, hs]⟩
      | some lab =>
        by_cases heq : lab = p.label
        · subst heq
          have hp : labelMatchP fs p m e = true := by simp [labelMatchP, hl, hfc]
          rw [List.find?_cons, hp]
          exact ⟨["/sys/class/hwmon/hwmon" ++ toString m ++ "/" ++ e], [],
            (if v = true then
              [successLine p ("/sys/class/hwmon/hwmon" ++ toString m ++ "/" ++ replLabelInput e)]
            else []),
            by simp [scanLabels, hl, hfc]⟩
        · have hp : labelMatchP fs p m e = false := by
            simp [labelMatchP, hl, hfc, heq]
          rw [List.find?_cons, hp]
          have hrec := ih ("/sys/class/hwmon/hwmon" ++ toString m ++ "/" ++ e)
          cases hfind : es.find? (labelMatchP fs p m) with
          | none =>
            rw [hfind] at hrec
            obtain ⟨fn', opened, outs, hs⟩ := hrec
            exact ⟨fn', ("/sys/class/hwmon/hwmon" ++ toString m ++ "/" ++ e) :: opened, outs,
              by simp [scanLabels, hl, hfc, heq, hs]⟩
          | some e' =>
            rw [hfind] at hrec
            obtain ⟨opened, outs, dg, hs⟩ := hrec
            exact ⟨("/sys/class/hwmon/hwmon" ++ toString m ++ "/" ++ e) :: opened, outs, dg,
              by simp [scanLabels, hl, hfc, heq, hs]⟩
    · have hp : labelMatchP fs p m e = false := by simp [labelMatchP, hl]
      rw [List.find?_cons, hp]
      have hrec := ih fn
      cases hfind : es.find? (labelMatchP fs p m) with
      | none =>
        rw [hfind] at hrec
        obtain ⟨fn', opened, outs, hs⟩ := hrec
        exact ⟨fn', opened, outs, by simp [scanLabels, hl, hs]⟩
      | some e' =>
        rw [hfind] at hrec
        obtain ⟨opened, outs, dg, hs⟩ := hrec
        exact ⟨opened, outs, dg, by simp [scanLabels, hl, hs]⟩

/-- A loop-body iteration whose driver-binding path does not open just
moves to the next index with the probed path in the buffer. -/
theorem resolveStep_skip (fs : SysFS) (v : Bool) (p : PmbusInfo) (i : Int)
    (h : fs.files (drvNamePath i p.address) = none) :
    resolveStep fs v p i = .next (i + 1) (drvNamePath i p.address) Emit.nil := by
  unfold resolveStep
  simp only [h]

/-- Skipping a run of loop indices whose driver-binding path does not
open: the loop state after `k` such iterations is the loop at `i + k`
with `k` fuel consumed (and some buffer content), events unchanged. -/
theorem resolveLoop_skip (fs : SysFS) (v : Bool) (p : PmbusInfo) (num : Int) :
    ∀ (k : Nat) (i : Int) (fn : String) (em : Emit) (fuel : Nat),
      i + k ≤ num →
      (∀ t : Int, i ≤ t → t < i + k → fs.files (drvNamePath t p.address) = none) →
      k ≤ fuel →
      ∃ fn', resolveLoop fs v p num fuel i fn em =
        resolveLoop fs v p num (fuel - k) (i + k) fn' em := by
  intro k
  induction k with
  | zero =>
    intro i fn em fuel _ _ _
    exact ⟨fn, by simp⟩
  | succ k ih =>
    intro i fn em fuel hle hnone hfuel
    have hi : ¬ num ≤ i := by push_cast at hle; omega
    obtain ⟨fuel', rfl⟩ : ∃ f, fuel = f + 1 := ⟨fuel - 1, by omega⟩
    have hstep := resolveStep_skip fs v p i (hnone i le_rfl (by push_cast; omega))
    have happ : em.app Emit.nil = em := by cases em; simp [Emit.app, Emit.nil]
    obtain ⟨fn', hrec⟩ := ih (i + 1) (drvNamePath i p.address) em fuel'
      (by push_cast at hle ⊢; omega)
      (fun t h1 h2 => hnone t (by omega) (by push_cast at h2 ⊢; omega))
      (by omega)
    refine ⟨fn', ?_⟩
    rw [resolveLoop]
    rw [if_neg hi, hstep]
    show resolveLoop fs v p num fuel' (i + 1) (drvNamePath i p.address) (em.app Emit.nil) = _
    rw [happ, hrec]
    congr 1
    · omega
    · push_cast; omega

/-- Exiting the resolver loop: when the index has reached `num`, the
loop returns `-1` with the current buffer and events, whatever the
fuel. -/
theorem resolveLoop_exit (fs : SysFS) (v : Bool) (p : PmbusInfo) (num i : Int)
    (fn : String) (em : Emit) (fuel : Nat) (h : num ≤ i) :
    resolveLoop fs v p num fuel i fn em = some ⟨-1, fn, p, .notFound, em⟩ := by
  cases fuel <;> rw [resolveLoop, if_pos h]

/-- Replacing the last five characters (`"label"`) by `"input"`, as the
code does, turns a name of the form `pre ++ "_label"` into
`pre ++ "_input"` — the claimed suffix substitution. -/
theorem replLabelInput_append (pre : String) :
    replLabelInput (pre ++ "_label") = pre ++ "_input" := by
  apply String.ext
  unfold replLabelInput
  rw [String.data_append]
  have h6 : ("_label" : String).data = ['_', 'l', 'a', 'b', 'e', 'l'] := rfl
  have h5 : ("input" : String).data = ['i', 'n', 'p', 'u', 't'] := rfl
  rw [h6, h5]
  have hlen : (pre.data ++ ['_', 'l', 'a', 'b', 'e', 'l']).length - 5 = pre.data.length + 1 := by
    simp
  rw [hlen, List.take_append_eq_append_take]
  rw [String.data_append]
  simp

/-- Step-1 of the resolver at the unique index whose driver-binding path
opens and names the right chip: with a nonempty `pInfo->name`, the body
returns `hwmon<m>/<name>` at once. -/
theorem resolveStep_family_explicit (fs : SysFS) (v : Bool) (p : PmbusInfo)
    (i₀ m : Int) (dl : List String) (ent : String)
    (hname : p.name ≠ "")
    (hat : fs.files (drvNamePath i₀ p.address) = some p.device)
    (hdir : fs.dirs (drvHwmonPath i₀ p.address) = some dl)
    (hent : (dl.drop 2).head? = some ent)
    (hm : parseIntToken (ent.drop 5) = some m) :
    resolveStep fs v p i₀ =
      .done m ("/sys/class/hwmon/hwmon" ++ toString m ++ "/" ++ p.name) p .found
        ⟨[], [], [],
          ((if v = true then ["\t" ++ drvNamePath i₀ p.address ++ " => " ++ p.device ++ "\n"]
            else []) ++
            (if v = true then ["\t" ++ drvHwmonPath i₀ p.address ++ " => " ++ ent ++ "\n"]
            else [])) ++
            (if v = true then
              [successLine p ("/sys/class/hwmon/hwmon" ++ toString m ++ "/" ++ p.name)]
            else [])⟩ := by
  unfold resolveStep
  simp only [hat, hdir, hent, hm, Option.getD_some]
  simp [hname]

/-- The full resolver on the single-bound-instance filesystem family,
explicit-attribute case: it returns index `m` with filename
`hwmon<m>/<name>`, no descriptor update and no label-scan events. -/
theorem resolveLoop_family_explicit (fs : SysFS) (v : Bool) (p : PmbusInfo)
    (num i₀ m : Int) (dl : List String) (ent : String) (fuel : Nat)
    (hname : p.name ≠ "")
    (hnum : count_hwmon_reg_devices fs = num)
    (h0 : 0 ≤ i₀) (hin : i₀ < num)
    (honly : ∀ t : Int, 0 ≤ t → t < num → t ≠ i₀ →
      fs.files (drvNamePath t p.address) = none)
    (hat : fs.files (drvNamePath i₀ p.address) = some p.device)
    (hdir : fs.dirs (drvHwmonPath i₀ p.address) = some dl)
    (hent : (dl.drop 2).head? = some ent)
    (hm : parseIntToken (ent.drop 5) = some m)
    (hfuel : num.toNat ≤ fuel) :
    ∃ r, get_pmbus_device_filename fs v p fuel = some r ∧
      r.ret = m ∧
      r.filename = "/sys/class/hwmon/hwmon" ++ toString m ++ "/" ++ p.name ∧
      r.pInfo = p ∧ r.site = .found ∧
      r.em.labelDirs = [] ∧ r.em.labelFiles = [] := by
  obtain ⟨fn', hskip⟩ := resolveLoop_skip fs v p num i₀.toNat 0 "" Emit.nil fuel
    (by omega)
    (fun t h1 h2 => honly t (by omega) (by omega) (by omega))
    (by omega)
  unfold get_pmbus_device_filename
  rw [hnum, hskip]
  have hpos : (0 : Int) + ((i₀.toNat : Nat) : Int) = i₀ := by omega
  rw [hpos]
  have hi : ¬ num ≤ i₀ := by omega
  obtain ⟨f2, hf2⟩ : ∃ f, fuel - i₀.toNat = f + 1 := ⟨fuel - i₀.toNat - 1, by omega⟩
  rw [hf2, resolveLoop, if_neg hi]
  rw [resolveStep_family_explicit fs v p i₀ m dl ent hname hat hdir hent hm]
  exact ⟨_, rfl, rfl, rfl, rfl, rfl, by simp [Emit.app, Emit.nil], by simp [Emit.app, Emit.nil]⟩

/-- The full resolver on the filesystem family, label case with a
matching label file: it returns index `m`, filename
`hwmon<m>/<derived name>`, and memoizes the derived name into the
descriptor. -/
theorem resolveLoop_family_found (fs : SysFS) (v : Bool) (p : PmbusInfo)
    (num i₀ m : Int) (dl es : List String) (ent e : String) (fuel : Nat)
    (hname : p.name = "")
    (hnum : count_hwmon_reg_devices fs = num)
    (h0 : 0 ≤ i₀) (hin : i₀ < num)
    (honly : ∀ t : Int, 0 ≤ t → t < num → t ≠ i₀ →
      fs.files (drvNamePath t p.address) = none)
    (hat : fs.files (drvNamePath i₀ p.address) = some p.device)
    (hdir : fs.dirs (drvHwmonPath i₀ p.address) = some dl)
    (hent : (dl.drop 2).head? = some ent)
    (hm : parseIntToken (ent.drop 5) = some m)
    (hes : fs.dirs (hwmonDirPath m) = some es)
    (hfind : es.find? (labelMatchP fs p m) = some e)
    (hfuel : num.toNat ≤ fuel) :
    ∃ r, get_pmbus_device_filename fs v p fuel = some r ∧
      r.ret = m ∧
      r.filename = "/sys/class/hwmon/hwmon" ++ toString m ++ "/" ++ replLabelInput e ∧
      r.pInfo = { p with name := replLabelInput e } ∧ r.site = .found := by
  obtain ⟨fn', hskip⟩ := resolveLoop_skip fs v p num i₀.toNat 0 "" Emit.nil fuel
    (by omega)
    (fun t h1 h2 => honly t (by omega) (by omega) (by omega))
    (by omega)
  unfold get_pmbus_device_filename
  rw [hnum, hskip]
  have hpos : (0 : Int) + ((i₀.toNat : Nat) : Int) = i₀ := by omega
  rw [hpos]
  have hi : ¬ num ≤ i₀ := by omega
  obtain ⟨f2, hf2⟩ : ∃ f, fuel - i₀.toNat = f + 1 := ⟨fuel - i₀.toNat - 1, by omega⟩
  rw [hf2, resolveLoop, if_neg hi]
  have hscan := scanLabels_spec fs v p m es (hwmonDirPath m)
  rw [hfind] at hscan
  obtain ⟨opened, outs, dg, hs⟩ := hscan
  have hstep : resolveStep fs v p i₀ =
      .done m ("/sys/class/hwmon/hwmon" ++ toString m ++ "/" ++ replLabelInput e)
        { p with name := replLabelInput e } .found
        ⟨[hwmonDirPath m], opened, outs,
          ((if v = true then ["\t" ++ drvNamePath i₀ p.address ++ " => " ++ p.device ++ "\n"]
            else []) ++
            (if v = true then ["\t" ++ drvHwmonPath i₀ p.address ++ " => " ++ ent ++ "\n"]
            else []) ++
            (if v = true then ["\tSearching for name that matches label " ++ p.label ++ "\n"]
            else [])) ++ dg⟩ := by
    unfold resolveStep
    simp only [hat, hdir, hent, hm, Option.getD_some, hes, hs]
    simp [hname]
  rw [hstep]
  exact ⟨_, rfl, rfl, rfl, rfl, rfl⟩

/-- The verbose diagnostic lines produced by a loop-body iteration up to
the start of its label scan. -/
def scanDiag (v : Bool) (p : PmbusInfo) (i₀ : Int) (ent : String) : List String :=
  ((if v = true then ["\t" ++ drvNamePath i₀ p.address ++ " => " ++ p.device ++ "\n"]
    else []) ++
    (if v = true then ["\t" ++ drvHwmonPath i₀ p.address ++ " => " ++ ent ++ "\n"]
    else [])) ++
    (if v = true then ["\tSearching for name that matches label " ++ p.label ++ "\n"]
    else [])

/-- The full resolver on the filesystem family, label case with no
matching label file anywhere in the scanned directory: the loop
continues past the reassigned index and finally returns `-1`
(`NotFound`) with the descriptor unchanged. -/
theorem resolveLoop_family_nomatch (fs : SysFS) (v : Bool) (p : PmbusInfo)
    (num i₀ m : Int) (dl es : List String) (ent : String) (fuel : Nat)
    (hname : p.name = "")
    (hnum : count_hwmon_reg_devices fs = num)
    (h0 : 0 ≤ i₀) (hin : i₀ < num)
    (honly : ∀ t : Int, 0 ≤ t → t < num → t ≠ i₀ →
      fs.files (drvNamePath t p.address) = none)
    (hat : fs.files (drvNamePath i₀ p.address) = some p.device)
    (hdir : fs.dirs (drvHwmonPath i₀ p.address) = some dl)
    (hent : (dl.drop 2).head? = some ent)
    (hm : parseIntToken (ent.drop 5) = some m)
    (him : i₀ ≤ m)
    (hes : fs.dirs (hwmonDirPath m) = some es)
    (hfind : es.find? (labelMatchP fs p m) = none)
    (hfuel : num.toNat ≤ fuel) :
    ∃ r, get_pmbus_device_filename fs v p fuel = some r ∧
      r.ret = -1 ∧ r.site = .notFound ∧ r.pInfo = p := by
  obtain ⟨fn', hskip⟩ := resolveLoop_skip fs v p num i₀.toNat 0 "" Emit.nil fuel
    (by omega)
    (fun t h1 h2 => honly t (by omega) (by omega) (by omega))
    (by omega)
  unfold get_pmbus_device_filename
  rw [hnum, hskip]
  have hpos : (0 : Int) + ((i₀.toNat : Nat) : Int) = i₀ := by omega
  rw [hpos]
  have hi : ¬ num ≤ i₀ := by omega
  obtain ⟨f2, hf2⟩ : ∃ f, fuel - i₀.toNat = f + 1 := ⟨fuel - i₀.toNat - 1, by omega⟩
  rw [hf2, resolveLoop, if_neg hi]
  have hscan := scanLabels_spec fs v p m es (hwmonDirPath m)
  rw [hfind] at hscan
  obtain ⟨fn'', opened, outs, hs⟩ := hscan
  have hstep : resolveStep fs v p i₀ =
      .next (m + 1) fn'' ⟨[hwmonDirPath m], opened, outs, scanDiag v p i₀ ent⟩ := by
    unfold resolveStep
    simp only [hat, hdir, hent, hm, Option.getD_some, hes, hs]
    simp [hname, scanDiag]
  rw [hstep]
  change ∃ r, resolveLoop fs v p num f2 (m + 1) fn''
      (Emit.nil.app ⟨[hwmonDirPath m], opened, outs, scanDiag v p i₀ ent⟩) = some r ∧
    r.ret = -1 ∧ r.site = RSite.notFound ∧ r.pInfo = p
  by_cases hend : num ≤ m + 1
  · exact ⟨_, resolveLoop_exit fs v p num (m + 1) fn''
      (Emit.nil.app ⟨[hwmonDirPath m], opened, outs, scanDiag v p i₀ ent⟩) f2 hend,
      rfl, rfl, rfl⟩
  · obtain ⟨fn3, hskip2⟩ := resolveLoop_skip fs v p num (num - (m + 1)).toNat (m + 1) fn''
      (Emit.nil.app ⟨[hwmonDirPath m], opened, outs, scanDiag v p i₀ ent⟩) f2
      (by omega)
      (fun t h1 h2 => honly t (by omega) (by omega) (by omega))
      (by omega)
    rw [hskip2]
    have hend2 : (m + 1) + (((num - (m + 1)).toNat : Nat) : Int) = num := by omega
    rw [hend2]
    exact ⟨_, resolveLoop_exit fs v p num num fn3
      (Emit.nil.app ⟨[hwmonDirPath m], opened, outs, scanDiag v p i₀ ent⟩)
      (f2 - (num - (m + 1)).toNat) le_rfl, rfl, rfl, rfl⟩

/-- A derived attribute name is never the empty string (it ends in
`"input"`), so a successful label resolution marks the descriptor as
memoized. -/
theorem replLabelInput_ne_empty (s : String) : replLabelInput s ≠ "" := by
  unfold replLabelInput
  simp [String.ext_iff]

/-- C4: for a descriptor with empty `explicitAttribute`, on a filesystem
whose bus address is bound at exactly one probe index resolving to
instance `m`, the resolver scans the `*label*` files of `hwmon<m>` in
enumeration order: if some file opens and holds exactly the
descriptor's label, the first such file `e` wins and the resolver
returns index `m` with attribute `hwmon<m>/<e with trailing "label"
replaced by "input">`, memoized into the descriptor; if none matches it
returns `-1` (`NotFound`).  The code's last-five-character overwrite
agrees with the claimed `_label` → `_input` suffix substitution. -/
theorem label_scan_resolution (fs : SysFS) (v : Bool) (p : PmbusInfo)
    (num i₀ m : Int) (dl es : List String) (ent : String) (fuel : Nat)
    (hname : p.name = "")
    (hnum : count_hwmon_reg_devices fs = num)
    (h0 : 0 ≤ i₀) (hin : i₀ < num)
    (honly : ∀ t : Int, 0 ≤ t → t < num → t ≠ i₀ →
      fs.files (drvNamePath t p.address) = none)
    (hat : fs.files (drvNamePath i₀ p.address) = some p.device)
    (hdir : fs.dirs (drvHwmonPath i₀ p.address) = some dl)
    (hent : (dl.drop 2).head? = some ent)
    (hm : parseIntToken (ent.drop 5) = some m)
    (him : i₀ ≤ m)
    (hes : fs.dirs (hwmonDirPath m) = some es)
    (hfuel : num.toNat ≤ fuel) :
    (match es.find? (labelMatchP fs p m) with
     | some e =>
         (get_pmbus_device_filename fs v p fuel).map
             (fun r => (r.ret, r.filename, r.pInfo.name, r.site)) =
           some (m, "/sys/class/hwmon/hwmon" ++ toString m ++ "/" ++ replLabelInput e,
                 replLabelInput e, RSite.found)
     | none =>
         (get_pmbus_device_filename fs v p fuel).map (fun r => (r.ret, r.site)) =
           some (-1, RSite.notFound)) ∧
    ∀ pre : String, replLabelInput (pre ++ "_label") = pre ++ "_input" := by
  constructor
  · cases hfind : es.find? (labelMatchP fs p m) with
    | some e =>
      obtain ⟨r, hr, h1, h2, h3, h4⟩ := resolveLoop_family_found fs v p num i₀ m dl es
        ent e fuel hname hnum h0 hin honly hat hdir hent hm hes hfind hfuel
      rw [hr]
      simp [h1, h2, h3, h4]
    | none =>
      obtain ⟨r, hr, h1, h2, h3⟩ := resolveLoop_family_nomatch fs v p num i₀ m dl es
        ent fuel hname hnum h0 hin honly hat hdir hent hm him hes hfind hfuel
      rw [hr]
      simp [h1, h2]
  · exact replLabelInput_append

/-- Witness for `label_scan_resolution` on the scenario-A filesystem:
the first (only) matching label file `temp1_label` resolves to
`hwmon3/temp1_input`. -/
theorem label_scan_resolution_witness :
    (get_pmbus_device_filename fs6 false dTemp 4).map
        (fun r => (r.ret, r.filename, r.pInfo.name, r.site)) =
      some (3, "/sys/class/hwmon/hwmon3/temp1_input", "temp1_input", RSite.found) ∧
    replLabelInput ("temp1" ++ "_label") = "temp1" ++ "_input" := by
  have h := label_scan_resolution fs6 false dTemp 4 3 3 [".", "..", "hwmon3"]
    ["name", "temp1_label", "temp1_input"] "hwmon3" 4
    rfl rfl (by decide) (by decide)
    (fun t h1 h2 h3 => by interval_cases t <;> first | rfl | exact absurd rfl h3)
    rfl rfl rfl (by decide) (by decide) rfl (by decide)
  obtain ⟨h1, h2⟩ := h
  have hfind : (["name", "temp1_label", "temp1_input"] : List String).find?
      (labelMatchP fs6 dTemp 3) = some "temp1_label" := rfl
  rw [hfind] at h1
  exact ⟨h1, h2 "temp1"⟩

/-! ### C5 — idempotent resolution through the descriptor cache -/

/-- C5: on the single-bound-instance filesystem family with a matching
label file, resolving a fresh descriptor and then resolving the updated
descriptor again (as `print_pmbus_info` would on a second pass over the
same row) yields the same attribute path, and the second call opens no
label directory and no label file — it is served from the memoized
`pInfo->name`. -/
theorem resolve_twice_memoized (fs : SysFS) (v : Bool) (p : PmbusInfo)
    (num i₀ m : Int) (dl es : List String) (ent e : String) (fuel : Nat)
    (hname : p.name = "")
    (hnum : count_hwmon_reg_devices fs = num)
    (h0 : 0 ≤ i₀) (hin : i₀ < num)
    (honly : ∀ t : Int, 0 ≤ t → t < num → t ≠ i₀ →
      fs.files (drvNamePath t p.address) = none)
    (hat : fs.files (drvNamePath i₀ p.address) = some p.device)
    (hdir : fs.dirs (drvHwmonPath i₀ p.address) = some dl)
    (hent : (dl.drop 2).head? = some ent)
    (hm : parseIntToken (ent.drop 5) = some m)
    (hes : fs.dirs (hwmonDirPath m) = some es)
    (hfind : es.find? (labelMatchP fs p m) = some e)
    (hfuel : num.toNat ≤ fuel)
    (r₁ r₂ : ResolveResult)
    (h₁ : get_pmbus_device_filename fs v p fuel = some r₁)
    (h₂ : get_pmbus_device_filename fs v r₁.pInfo fuel = some r₂) :
    r₂.filename = r₁.filename ∧ r₂.em.labelDirs = [] ∧ r₂.em.labelFiles = [] ∧
    r₂.pInfo = r₁.pInfo := by
  obtain ⟨rA, hA, hA1, hA2, hA3, hA4⟩ := resolveLoop_family_found fs v p num i₀ m dl es
    ent e fuel hname hnum h0 hin honly hat hdir hent hm hes hfind hfuel
  rw [h₁] at hA
  obtain rfl : r₁ = rA := Option.some.inj hA
  have haddr : r₁.pInfo.address = p.address := by rw [hA3]
  have hdev : r₁.pInfo.device = p.device := by rw [hA3]
  have hname2 : r₁.pInfo.name ≠ "" := by
    rw [hA3]
    exact replLabelInput_ne_empty e
  obtain ⟨rB, hB, hB1, hB2, hB3, hB4, hB5, hB6⟩ :=
    resolveLoop_family_explicit fs v r₁.pInfo num i₀ m dl ent fuel hname2 hnum h0 hin
      (by rw [haddr]; exact honly)
      (by rw [haddr, hdev]; exact hat)
      (by rw [haddr]; exact hdir)
      hent hm hfuel
  rw [h₂] at hB
  obtain rfl : r₂ = rB := Option.some.inj hB
  refine ⟨?_, hB5, hB6, hB3⟩
  rw [hB2, hA2]
  rw [hA3]

/-- Witness for `resolve_twice_memoized`: two successive calls on the
scenario-A descriptor over `fs6`. -/
theorem resolve_twice_memoized_witness :
    (rOf (get_pmbus_device_filename fs6 false
        (rOf (get_pmbus_device_filename fs6 false dTemp 4)).pInfo 4)).filename =
      (rOf (get_pmbus_device_filename fs6 false dTemp 4)).filename ∧
    (rOf (get_pmbus_device_filename fs6 false
        (rOf (get_pmbus_device_filename fs6 false dTemp 4)).pInfo 4)).em.labelDirs = [] ∧
    (rOf (get_pmbus_device_filename fs6 false
        (rOf (get_pmbus_device_filename fs6 false dTemp 4)).pInfo 4)).em.labelFiles = [] ∧
    (rOf (get_pmbus_device_filename fs6 false
        (rOf (get_pmbus_device_filename fs6 false dTemp 4)).pInfo 4)).pInfo =
      (rOf (get_pmbus_device_filename fs6 false dTemp 4)).pInfo :=
  resolve_twice_memoized fs6 false dTemp 4 3 3 [".", "..", "hwmon3"]
    ["name", "temp1_label", "temp1_input"] "hwmon3" "temp1_label" 4
    rfl rfl (by decide) (by decide)
    (fun t h1 h2 h3 => by interval_cases t <;> first | rfl | exact absurd rfl h3)
    rfl rfl rfl (by decide) rfl rfl (by decide)
    (rOf (get_pmbus_device_filename fs6 false dTemp 4))
    (rOf (get_pmbus_device_filename fs6 false
      (rOf (get_pmbus_device_filename fs6 false dTemp 4)).pInfo 4))
    rfl rfl

/-! ### C9 — verbose changes only diagnostic output -/

/-- The verbose-independent part of an event record: label directories
opened, label files opened, unconditional output. -/
def Emit.core (e : Emit) : List String × List String × List String :=
  (e.labelDirs, e.labelFiles, e.outs)

/-- The verbose-independent part of a scan result. -/
def ScanOut.core : ScanOut → Bool × String × String × List String × List String
  | .found f r o outs _ => (true, f, r, o, outs)
  | .noMatch f o outs => (false, f, "", o, outs)

/-- The verbose-independent part of a loop-body outcome. -/
def StepOut.core :
    StepOut → Sum (Int × String × (List String × List String × List String))
      (Int × String × PmbusInfo × RSite × (List String × List String × List String))
  | .next j fn em => .inl (j, fn, em.core)
  | .done ret fn p site em => .inr (ret, fn, p, site, em.core)

/-- The verbose-independent part of a resolver result: return value,
filename, descriptor, return site and non-diagnostic events. -/
def ResolveResult.core (r : ResolveResult) :
    Int × String × PmbusInfo × RSite × (List String × List String × List String) :=
  (r.ret, r.filename, r.pInfo, r.site, r.em.core)

/-- The label scan behaves identically under both verbose settings,
except for its diagnostic lines. -/
theorem scanLabels_core (fs : SysFS) (p : PmbusInfo) (m : Int) (v₁ v₂ : Bool) :
    ∀ (es : List String) (fn : String),
      (scanLabels fs v₁ p m es fn).core = (scanLabels fs v₂ p m es fn).core := by
  intro es
  induction es with
  | nil => intro fn; rfl
  | cons e es ih =>
    intro fn
    by_cases hl : strstrB e "label"
    · cases hfc : fs.files ("/sys/class/hwmon/hwmon" ++ toString m ++ "/" ++ e) with
      | none =>
        have h := ih ("/sys/class/hwmon/hwmon" ++ toString m ++ "/" ++ e)
        cases h1 : scanLabels fs v₁ p m es ("/sys/class/hwmon/hwmon" ++ toString m ++ "/" ++ e) <;>
          cases h2 : scanLabels fs v₂ p m es ("/sys/class/hwmon/hwmon" ++ toString m ++ "/" ++ e) <;>
          rw [h1, h2] at h <;> simp [ScanOut.core] at h <;>
          simp [scanLabels, hl, hfc, h1, h2, ScanOut.core, h]
      | some lab =>
        by_cases heq : lab = p.label
        · simp [scanLabels, hl, hfc, heq, ScanOut.core]
        · have h := ih ("/sys/class/hwmon/hwmon" ++ toString m ++ "/" ++ e)
          cases h1 : scanLabels fs v₁ p m es ("/sys/class/hwmon/hwmon" ++ toString m ++ "/" ++ e) <;>
            cases h2 : scanLabels fs v₂ p m es ("/sys/class/hwmon/hwmon" ++ toString m ++ "/" ++ e) <;>
            rw [h1, h2] at h <;> simp [ScanOut.core] at h <;>
            simp [scanLabels, hl, hfc, heq, h1, h2, ScanOut.core, h]
    · have h := ih fn
      simp only [scanLabels, hl]
      exact h

/-- One loop-body iteration behaves identically under both verbose
settings, except for its diagnostic lines. -/
theorem resolveStep_core (fs : SysFS) (p : PmbusInfo) (i : Int) (v₁ v₂ : Bool) :
    (resolveStep fs v₁ p i).core = (resolveStep fs v₂ p i).core := by
  unfold resolveStep
  cases hf : fs.files (drvNamePath i p.address) with
  | none => simp [hf]
  | some dn =>
    by_cases hd : p.device = dn
    · cases hdir : fs.dirs (drvHwmonPath i p.address) with
      | none => simp [hf, hd, hdir, StepOut.core, Emit.core]
      | some dl =>
        cases hent : (dl.drop 2).head? with
        | none => simp [hf, hd, hdir, hent, StepOut.core, Emit.core]
        | some ent =>
          by_cases hname : p.name = ""
          · cases hes : fs.dirs (hwmonDirPath ((parseIntToken (ent.drop 5)).getD i)) with
            | none => simp [hf, hd, hdir, hent, hname, hes, StepOut.core, Emit.core]
            | some es =>
              have h := scanLabels_core fs p ((parseIntToken (ent.drop 5)).getD i) v₁ v₂ es
                (hwmonDirPath ((parseIntToken (ent.drop 5)).getD i))
              cases h1 : scanLabels fs v₁ p ((parseIntToken (ent.drop 5)).getD i) es
                  (hwmonDirPath ((parseIntToken (ent.drop 5)).getD i)) <;>
                cases h2 : scanLabels fs v₂ p ((parseIntToken (ent.drop 5)).getD i) es
                  (hwmonDirPath ((parseIntToken (ent.drop 5)).getD i)) <;>
                rw [h1, h2] at h <;> simp [ScanOut.core] at h <;>
                simp [hf, hd, hdir, hent, hname, hes, h1, h2, StepOut.core, Emit.core, h]
          · simp [hf, hd, hdir, hent, hname, StepOut.core, Emit.core]
    · simp [hf, hd, StepOut.core, Emit.core]

/-- Concatenating event records with equal cores yields equal cores. -/
theorem Emit.app_core (a b c d : Emit) (h1 : a.core = b.core) (h2 : c.core = d.core) :
    (a.app c).core = (b.app d).core := by
  cases a; cases b; cases c; cases d
  simp [Emit.core, Emit.app] at h1 h2 ⊢
  obtain ⟨x1, x2, x3⟩ := h1
  obtain ⟨y1, y2, y3⟩ := h2
  rw [x1, x2, x3, y1, y2, y3]
  exact ⟨rfl, rfl, rfl⟩

/-- The whole resolver loop behaves identically under both verbose
settings, except for diagnostic lines. -/
theorem resolveLoop_core (fs : SysFS) (p : PmbusInfo) (num : Int) (v₁ v₂ : Bool) :
    ∀ (fuel : Nat) (i : Int) (fn : String) (em₁ em₂ : Emit),
      em₁.core = em₂.core →
      (resolveLoop fs v₁ p num fuel i fn em₁).map ResolveResult.core =
        (resolveLoop fs v₂ p num fuel i fn em₂).map ResolveResult.core := by
  intro fuel
  induction fuel with
  | zero =>
    intro i fn em₁ em₂ hem
    by_cases hi : num ≤ i
    · rw [resolveLoop, resolveLoop, if_pos hi, if_pos hi]
      simp [ResolveResult.core, hem]
    · rw [resolveLoop, resolveLoop, if_neg hi, if_neg hi]
  | succ fuel ih =>
    intro i fn em₁ em₂ hem
    by_cases hi : num ≤ i
    · rw [resolveLoop, resolveLoop, if_pos hi, if_pos hi]
      simp [ResolveResult.core, hem]
    · rw [resolveLoop, resolveLoop, if_neg hi, if_neg hi]
      have hstep := resolveStep_core fs p i v₁ v₂
      cases h1 : resolveStep fs v₁ p i <;> cases h2 : resolveStep fs v₂ p i <;>
        rw [h1, h2] at hstep <;> simp [StepOut.core] at hstep
      · obtain ⟨hj, hfn, hcore⟩ := hstep
        subst hj; subst hfn
        exact ih _ _ (em₁.app _) (em₂.app _) (Emit.app_core _ _ _ _ hem hcore)
      · obtain ⟨hret, hfn, hp, hsite, hcore⟩ := hstep
        subst hret; subst hfn; subst hp; subst hsite
        simp [ResolveResult.core, Emit.app_core _ _ _ _ hem hcore]

/-- The reporter row loop emits the same unconditional output (and hits
the same error, if any) under both verbose settings. -/
theorem print_pmbus_rows_core (fs : SysFS) (fuel : Nat) (v₁ v₂ : Bool) :
    ∀ (l : List PmbusInfo) (idx : Nat),
      (print_pmbus_rows fs v₁ fuel idx l).map Prod.fst =
        (print_pmbus_rows fs v₂ fuel idx l).map Prod.fst := by
  intro l
  induction l with
  | nil => intro idx; rfl
  | cons p rest ih =>
    intro idx
    by_cases hdev : p.device = ""
    · simp [print_pmbus_rows, hdev]
    · have hres : (get_pmbus_device_filename fs v₁ p fuel).map ResolveResult.core =
          (get_pmbus_device_filename fs v₂ p fuel).map ResolveResult.core :=
        resolveLoop_core fs p (count_hwmon_reg_devices fs) v₁ v₂ fuel 0 "" Emit.nil
          Emit.nil rfl
      cases h1 : get_pmbus_device_filename fs v₁ p fuel with
      | none =>
        cases h2 : get_pmbus_device_filename fs v₂ p fuel with
        | none => simp [print_pmbus_rows, hdev, h1, h2]
        | some r₂ => rw [h1, h2] at hres; simp at hres
      | some r₁ =>
        cases h2 : get_pmbus_device_filename fs v₂ p fuel with
        | none => rw [h1, h2] at hres; simp at hres
        | some r₂ =>
          rw [h1, h2] at hres
          simp [ResolveResult.core, Emit.core, Prod.ext_iff] at hres
          obtain ⟨hret, hfn, hp, hsite, hld, hlf, houts⟩ := hres
          simp only [print_pmbus_rows, if_neg hdev, h1, h2]
          rw [hfn, houts]
          cases hfc : fs.files r₂.filename with
          | none => simp [hfc]
          | some tok =>
            cases hpv : parseIntToken tok with
            | none => simp [hfc, hpv]
            | some val =>
              have hrest := ih (idx + 1)
              cases hr1 : print_pmbus_rows fs v₁ fuel (idx + 1) rest <;>
                cases hr2 : print_pmbus_rows fs v₂ fuel (idx + 1) rest <;>
                rw [hr1, hr2] at hrest <;> simp [Except.map] at hrest <;>
                simp [hfc, hpv, hr1, hr2, Except.map, hrest]

/-- C9: verbose mode changes only the diagnostic output.  The resolver
returns the same result (return value, attribute filename, descriptor
update, return site, label-scan activity and unconditional output) under
both settings, and the reporter emits the same unconditional lines
(including all result lines) for any rail table. -/
theorem verbose_only_changes_diagnostics (fs : SysFS) (p : PmbusInfo)
    (table : List PmbusInfo) (fuel : Nat) :
    (get_pmbus_device_filename fs true p fuel).map ResolveResult.core =
      (get_pmbus_device_filename fs false p fuel).map ResolveResult.core ∧
    outsOf (print_pmbus_info fs true table fuel) =
      outsOf (print_pmbus_info fs false table fuel) := by
  constructor
  · exact resolveLoop_core fs p (count_hwmon_reg_devices fs) true false fuel 0 ""
      Emit.nil Emit.nil rfl
  · have h := print_pmbus_rows_core fs fuel true false table 0
    unfold print_pmbus_info outsOf
    cases h1 : print_pmbus_rows fs true fuel 0 table <;>
      cases h2 : print_pmbus_rows fs false fuel 0 table <;>
      rw [h1, h2] at h <;> simp [Except.map] at h <;>
      simp [Except.map, h]

/-! ### C10 — independent board tests, reports concatenated in order -/

/-- C10: the three hostname tests at lines 1982-2006 are independent
substring tests, not mutually exclusive branches.  For any hostname and
any combination of matching fragments (in particular any hostname
matching more than one), provided each matching board's reporter
succeeds, `print_power_utilization` emits exactly the reports of the
matching boards — and nothing for the non-matching ones — concatenated
in the fixed order Ultra96-V2, UltraZed-7EV-EVCC, UltraZed-3EG, and
returns 0. -/
theorem multi_board_reports_concatenated (fs : SysFS) (hostname : String)
    (verbose : Bool) (fuel : Nat) (o1 d1 o2 d2 o3 d3 : List String)
    (r1 : strstrB hostname "u96v2" = true →
      print_pmbus_info fs verbose pmbus_ultra96v2 fuel = .ok (o1, d1))
    (r2 : strstrB hostname "uz7ev" = true →
      print_pmbus_info fs verbose pmbus_uz7ev_evcc fuel = .ok (o2, d2))
    (r3 : strstrB hostname "uz3eg" = true →
      print_pmbus_info fs verbose pmbus_uz3eg_xxx fuel = .ok (o3, d3)) :
    print_power_utilization fs hostname verbose fuel =
      .ok (0,
        (if strstrB hostname "u96v2" then o1 else []) ++
        (if strstrB hostname "uz7ev" then o2 else []) ++
        (if strstrB hostname "uz3eg" then o3 else []),
        (if verbose then ["hostname=" ++ hostname ++ "\n"] else []) ++
        (if strstrB hostname "u96v2" then
          (if verbose then ["Ultra96-V2\n"] else []) ++ d1 else []) ++
        (if strstrB hostname "uz7ev" then
          (if verbose then ["UltraZed-7EV-EVCC\n"] else []) ++ d2 else []) ++
        (if strstrB hostname "uz3eg" then
          (if verbose then ["UltraZed-3EG\n"] else []) ++ d3 else [])) := by
  by_cases h1 : strstrB hostname "u96v2" = true <;>
    by_cases h2 : strstrB hostname "uz7ev" = true <;>
      by_cases h3 : strstrB hostname "uz3eg" = true <;>
        simp_all [print_power_utilization, runBoard]

/-- The unconditional-output payload of a successful reporter run. -/
def okOuts (r : Except RunError (List String × List String)) : List String :=
  match r with
  | .ok (o, _) => o
  | .error _ => []

/-- The diagnostic-output payload of a successful reporter run. -/
def okDiag (r : Except RunError (List String × List String)) : List String :=
  match r with
  | .ok (_, d) => d
  | .error _ => []

/-- Witness for `multi_board_reports_concatenated` at the claim's own
example: a hostname carrying exactly two fragments (`u96v2` and
`uz7ev`) over the trivial filesystem `fsT`; the Ultra96-V2 report is
followed by the UltraZed-7EV report and no UltraZed-3EG output. -/
theorem multi_board_reports_concatenated_witness :
    print_power_utilization fsT "u96v2-uz7ev" false 0 =
      .ok (0,
        okOuts (print_pmbus_info fsT false pmbus_ultra96v2 0) ++
          okOuts (print_pmbus_info fsT false pmbus_uz7ev_evcc 0) ++ [],
        okDiag (print_pmbus_info fsT false pmbus_ultra96v2 0) ++
          okDiag (print_pmbus_info fsT false pmbus_uz7ev_evcc 0) ++ []) := by
  have h := multi_board_reports_concatenated fsT "u96v2-uz7ev" false 0
    (okOuts (print_pmbus_info fsT false pmbus_ultra96v2 0))
    (okDiag (print_pmbus_info fsT false pmbus_ultra96v2 0))
    (okOuts (print_pmbus_info fsT false pmbus_uz7ev_evcc 0))
    (okDiag (print_pmbus_info fsT false pmbus_uz7ev_evcc 0))
    ([]) ([])
    (fun _ => rfl) (fun _ => rfl)
    (fun hc => absurd hc (by decide))
  exact h
